import Mathlib

/-!
Formal model of the `co2-monitor` sensor driver (`sensor/CO2MINI.py`).

The sensor state is the Python dict `self._values` mapping an operation
code (a byte) to the last decoded 16-bit value; a dict is modelled as a
function `Nat → Option Nat` (`none` = key absent, a lookup of an absent
key raises `KeyError`).  `read_data` is modelled by `readData`, whose
input is the outcome of `self._file.read(8)`: `none` when the read
raises, `some data` when it returns the byte list `data`.  Accessors
returning Python floats are modelled over `ℚ` (the conversions divide by
16 and 100 and subtract the literal 273.15).
-/

namespace CO2Monitor

/-- Operation code for CO2 readings (`CO2METER_CO2 = 0x50`). -/
def CO2METER_CO2 : Nat := 0x50

/-- Operation code for temperature readings (`CO2METER_TEMP = 0x42`). -/
def CO2METER_TEMP : Nat := 0x42

/-- Operation code for humidity readings (`CO2METER_HUM = 0x44`). -/
def CO2METER_HUM : Nat := 0x44

/-- The `self._values` dict: operation code to last stored value. -/
abbrev Values : Type := Nat → Option Nat

/-- Initial `self._values` from `__init__`:
`{CO2METER_CO2: 0, CO2METER_TEMP: 0, CO2METER_HUM: 0}`. -/
def initValues : Values := fun k =>
  if k = CO2METER_CO2 ∨ k = CO2METER_TEMP ∨ k = CO2METER_HUM then some 0 else none

/-- Dict assignment `self._values[operation] = val`. -/
def updateValues (s : Values) (operation val : Nat) : Values :=
  fun k => if k = operation then some val else s k

/-- Outcome of `self._file.read(8)`: `none` when the read raises an
I/O error, `some data` when it returns the bytes `data` (possibly fewer
than 8 on a short read of the unbuffered file). -/
abbrev ReadResult : Type := Option (List Nat)

/-- Model of `CO2MINI.read_data`.  The body indexes `data[4]` first, so
when the list has fewer than 5 elements an `IndexError` is raised and
caught by the bare `except`, returning `False`.  Otherwise the frame is
checked: `data[4] != 0x0D or (sum(data[:3]) & 0xFF) != data[3]` logs a
checksum error (state untouched), else
`self._values[data[0]] = data[1] << 8 | data[2]`.  Both of those
branches return `True`.  Returns the boolean result together with the
values dict after the call. -/
def readData (r : ReadResult) (s : Values) : Bool × Values :=
  match r with
  | none => (false, s)
  | some data =>
    if 4 < data.length then
      if data.getD 4 0 ≠ 0x0D ∨ (data.take 3).sum % 256 ≠ data.getD 3 0 then
        (true, s)
      else
        (true, updateValues s (data.getD 0 0) ((data.getD 1 0) <<< 8 ||| data.getD 2 0))
    else
      (false, s)

/-- Model of `CO2MINI.get_co2`: the dict lookup `self._values[CO2METER_CO2]`
(`none` models a `KeyError`). -/
def get_co2 (s : Values) : Option Nat := s CO2METER_CO2

/-- Model of `CO2MINI.get_temperature`:
`self._values[CO2METER_TEMP] / 16.0 - 273.15`. -/
def get_temperature (s : Values) : Option ℚ :=
  (s CO2METER_TEMP).map (fun v => (v : ℚ) / 16 - 273.15)

/-- Model of `CO2MINI.get_humidity`: `self._values[CO2METER_HUM] / 100.0`. -/
def get_humidity (s : Values) : Option ℚ :=
  (s CO2METER_HUM).map (fun v => (v : ℚ) / 100)

/-- A sequence of polling cycles: fold `read_data` over the outcomes of
the successive device reads, keeping only the values dict. -/
def runReads (evs : List ReadResult) (s : Values) : Values :=
  evs.foldl (fun s ev => (readData ev s).2) s

/-- Error type for failures of `open` / `fcntl.ioctl` during `__init__`. -/
abbrev IoErr : Type := String

/-- What a construction attempt produced: the propagated exception or the
facade object, whether `thread.start()` ran, and how many device reads
the attempt itself performed. -/
structure InitOutcome where
  result : Except IoErr Unit
  threadStarted : Bool
  deviceReads : Nat

/-- Model of `CO2MINI.__init__` (straight-line code): `open(device)` then
`fcntl.ioctl(...)`, each of which may raise, then `thread.start()`.
An exception in `open` or `ioctl` propagates before the thread is
created; the constructor itself never reads the device. -/
def initCO2MINI (openRes : Except IoErr Unit) (ioctlRes : Except IoErr Unit) :
    InitOutcome :=
  match openRes with
  | .error e => ⟨.error e, false, 0⟩
  | .ok _ =>
    match ioctlRes with
    | .error e => ⟨.error e, false, 0⟩
    | .ok _ => ⟨.ok (), true, 0⟩

/-- Model of `_co2_worker`, run for at most `fuel` loop iterations
starting at iteration `i`.  `alive j` is what `weak_self()` observes at
iteration `j` (`true` = the facade object is still reachable), `reads j`
the outcome of the device read performed by `read_data` in iteration
`j`.  Returns the number of device reads performed and the final values
dict.  When `weak_self()` yields `None` the loop breaks: no recursive
call, hence no further reads and no further state mutation. -/
def workerRun (alive : Nat → Bool) (reads : Nat → ReadResult) :
    Nat → Nat → Values → Nat × Values
  | 0, _, s => (0, s)
  | fuel + 1, i, s =>
    if alive i then
      let out := workerRun alive reads fuel (i + 1) (readData (reads i) s).2
      (out.1 + 1, out.2)
    else
      (0, s)

/-- A read outcome whose frame decodes successfully and carries the CO2
operation code `0x50`; only such a cycle writes `self._values[0x50]`. -/
def isCO2Update (r : ReadResult) : Bool :=
  match r with
  | none => false
  | some data =>
    decide (4 < data.length) &&
    (data.getD 4 0 == 0x0D) &&
    ((data.take 3).sum % 256 == data.getD 3 0) &&
    (data.getD 0 0 == CO2METER_CO2)

/-- C1: for every 8-byte frame whose byte 4 equals `0x0D` and whose low
8 bits of the sum of bytes 0-2 equal byte 3, the decode step of
`read_data` stores `(frame[1] <<< 8) ||| frame[2]` under key `frame[0]`
in the values dict, and the rest of the dict is untouched. -/
theorem readData_valid_frame_stores (data : List Nat) (s : Values)
    (hlen : data.length = 8)
    (hterm : data.getD 4 0 = 0x0D)
    (hsum : (data.take 3).sum % 256 = data.getD 3 0) :
    (readData (some data) s).2 =
      updateValues s (data.getD 0 0) ((data.getD 1 0) <<< 8 ||| data.getD 2 0) ∧
    (readData (some data) s).2 (data.getD 0 0) =
      some ((data.getD 1 0) <<< 8 ||| data.getD 2 0) := by
  have h4 : 4 < data.length := by omega
  have hcond : ¬(data.getD 4 0 ≠ 0x0D ∨ (data.take 3).sum % 256 ≠ data.getD 3 0) := by
    push_neg
    exact ⟨hterm, hsum⟩
  constructor
  · simp only [readData, if_pos h4, if_neg hcond]
  · simp only [readData, if_pos h4, if_neg hcond, updateValues]
    simp

/-- Witness for C1: the spec's scenario frame
`[0x50, 0x01, 0x94, 0xE5, 0x0D, 0, 0, 0]` is valid and stores `0x0194`
under key `0x50`. -/
theorem readData_valid_frame_stores_witness :
    (readData (some [0x50, 0x01, 0x94, 0xE5, 0x0D, 0, 0, 0]) initValues).2 =
      updateValues initValues 0x50 0x0194 ∧
    (readData (some [0x50, 0x01, 0x94, 0xE5, 0x0D, 0, 0, 0]) initValues).2 0x50 =
      some 0x0194 :=
  readData_valid_frame_stores [0x50, 0x01, 0x94, 0xE5, 0x0D, 0, 0, 0] initValues
    (by decide) (by decide) (by decide)

/-- C2: for every 8-byte frame in which byte 4 is not `0x0D` or the low
8 bits of the sum of bytes 0-2 differ from byte 3, `read_data` takes the
checksum-error branch and the values dict is left completely unchanged. -/
theorem readData_checksum_error_unchanged (data : List Nat) (s : Values)
    (hlen : data.length = 8)
    (hbad : data.getD 4 0 ≠ 0x0D ∨ (data.take 3).sum % 256 ≠ data.getD 3 0) :
    (readData (some data) s).2 = s := by
  have h4 : 4 < data.length := by omega
  simp only [readData, if_pos h4, if_pos hbad]

/-- Witness for C2: the spec's scenario frame
`[0x50, 0x01, 0x94, 0x95, 0x0D, 0, 0, 0]` has checksum `0xE5 ≠ 0x95`,
so the dict stays `initValues`. -/
theorem readData_checksum_error_unchanged_witness :
    (readData (some [0x50, 0x01, 0x94, 0x95, 0x0D, 0, 0, 0]) initValues).2 =
      initValues :=
  readData_checksum_error_unchanged [0x50, 0x01, 0x94, 0x95, 0x0D, 0, 0, 0]
    initValues (by decide) (by decide)

/-- C7: a valid frame whose operation code is none of `0x50`, `0x42`,
`0x44` is still stored verbatim under that unrecognized code. -/
theorem readData_unrecognized_op_stored (data : List Nat) (s : Values)
    (hlen : data.length = 8)
    (hterm : data.getD 4 0 = 0x0D)
    (hsum : (data.take 3).sum % 256 = data.getD 3 0)
    (_hop : data.getD 0 0 ≠ CO2METER_CO2 ∧ data.getD 0 0 ≠ CO2METER_TEMP ∧
      data.getD 0 0 ≠ CO2METER_HUM) :
    (readData (some data) s).2 (data.getD 0 0) =
      some ((data.getD 1 0) <<< 8 ||| data.getD 2 0) := by
  have h4 : 4 < data.length := by omega
  have hcond : ¬(data.getD 4 0 ≠ 0x0D ∨ (data.take 3).sum % 256 ≠ data.getD 3 0) := by
    push_neg
    exact ⟨hterm, hsum⟩
  simp only [readData, if_pos h4, if_neg hcond, updateValues]
  simp

/-- Witness for C7: frame `[0x41, 0x00, 0x07, 0x48, 0x0D, 0, 0, 0]`
carries the unrecognized code `0x41` and is stored under it. -/
theorem readData_unrecognized_op_stored_witness :
    (readData (some [0x41, 0x00, 0x07, 0x48, 0x0D, 0, 0, 0]) initValues).2 0x41 =
      some 0x0007 :=
  readData_unrecognized_op_stored [0x41, 0x00, 0x07, 0x48, 0x0D, 0, 0, 0]
    initValues (by decide) (by decide) (by decide) (by decide)

/-- C10: `read_data` returns `True` for every 8-byte frame read without
an exception — checksum failures included — and returns `False` exactly
when an exception is raised during the cycle (the read itself raising,
or the frame being too short to index `data[4]`). -/
theorem readData_bool_result (data : List Nat) (s : Values) (r : ReadResult)
    (hlen : data.length = 8) :
    (readData (some data) s).1 = true ∧
    ((readData r s).1 = false ↔
      r = none ∨ ∃ d, r = some d ∧ d.length ≤ 4) := by
  have h4 : 4 < data.length := by omega
  constructor
  · by_cases hbad : data.getD 4 0 ≠ 0x0D ∨ (data.take 3).sum % 256 ≠ data.getD 3 0
    · simp only [readData, if_pos h4, if_pos hbad]
    · simp only [readData, if_pos h4, if_neg hbad]
  · cases r with
    | none =>
      simp [readData]
    | some d =>
      simp only [readData]
      by_cases hd : 4 < d.length
      · rw [if_pos hd]
        constructor
        · intro hfalse
          exfalso
          by_cases hbad : d.getD 4 0 ≠ 0x0D ∨ (d.take 3).sum % 256 ≠ d.getD 3 0
          · rw [if_pos hbad] at hfalse
            exact absurd hfalse (by simp)
          · rw [if_neg hbad] at hfalse
            exact absurd hfalse (by simp)
        · rintro (h | ⟨d', hd', hlen'⟩)
          · exact absurd h (by simp)
          · injection hd' with h
            subst h
            exact absurd hlen' (by omega)
      · rw [if_neg hd]
        constructor
        · intro _
          exact Or.inr ⟨d, rfl, by omega⟩
        · intro _
          rfl

/-- Witness for C10: the checksum-failing 8-byte scenario frame yields
`True`, and a raising read yields `False` (so the boolean separates
exceptions from everything else). -/
theorem readData_bool_result_witness :
    (readData (some [0x50, 0x01, 0x94, 0x95, 0x0D, 0, 0, 0]) initValues).1 = true ∧
    ((readData none initValues).1 = false ↔
      (none : ReadResult) = none ∨
        ∃ d, (none : ReadResult) = some d ∧ d.length ≤ 4) :=
  readData_bool_result [0x50, 0x01, 0x94, 0x95, 0x0D, 0, 0, 0] initValues none
    (by decide)

/-- Helper: a `read_data` cycle never removes a key from the dict, so a
present key stays present. -/
theorem readData_preserves_some (r : ReadResult) (s : Values) (k : Nat)
    (h : (s k).isSome) : (((readData r s).2) k).isSome := by
  cases r with
  | none => exact h
  | some data =>
    by_cases h4 : 4 < data.length
    · by_cases hbad : data.getD 4 0 ≠ 0x0D ∨ (data.take 3).sum % 256 ≠ data.getD 3 0
      · simpa only [readData, if_pos h4, if_pos hbad] using h
      · simp only [readData, if_pos h4, if_neg hbad, updateValues]
        by_cases hk : k = data.getD 0 0
        · rw [if_pos hk]
          rfl
        · rw [if_neg hk]
          exact h
    · simpa only [readData, if_neg h4] using h

/-- Helper: present keys survive any sequence of polling cycles. -/
theorem runReads_preserves_some (evs : List ReadResult) (s : Values) (k : Nat)
    (h : (s k).isSome) : ((runReads evs s) k).isSome := by
  induction evs generalizing s with
  | nil => exact h
  | cons ev evs ih =>
    exact ih ((readData ev s).2) (readData_preserves_some ev s k h)

/-- C3: in any state reachable from the initial dict by polling cycles,
`get_co2`, `get_temperature` and `get_humidity` all succeed (no
`KeyError`): the dict starts with the three known codes at 0 and updates
only add or overwrite keys. -/
theorem accessors_never_fail (evs : List ReadResult) :
    (get_co2 (runReads evs initValues)).isSome = true ∧
    (get_temperature (runReads evs initValues)).isSome = true ∧
    (get_humidity (runReads evs initValues)).isSome = true := by
  have hc : ((runReads evs initValues) CO2METER_CO2).isSome :=
    runReads_preserves_some evs initValues CO2METER_CO2 (by decide)
  have ht : ((runReads evs initValues) CO2METER_TEMP).isSome :=
    runReads_preserves_some evs initValues CO2METER_TEMP (by decide)
  have hh : ((runReads evs initValues) CO2METER_HUM).isSome :=
    runReads_preserves_some evs initValues CO2METER_HUM (by decide)
  obtain ⟨vt, hvt⟩ := Option.isSome_iff_exists.mp ht
  obtain ⟨vh, hvh⟩ := Option.isSome_iff_exists.mp hh
  exact ⟨hc, by simp [get_temperature, hvt], by simp [get_humidity, hvh]⟩

/-- C4: with raw values `c`, `t`, `h` stored under the three codes,
`get_co2` returns `c` unconverted, `get_temperature` returns exactly
`t / 16 - 273.15` and `get_humidity` returns exactly `h / 100`. -/
theorem accessors_conversions (s : Values) (c t h : Nat)
    (hc : s CO2METER_CO2 = some c)
    (ht : s CO2METER_TEMP = some t)
    (hh : s CO2METER_HUM = some h) :
    get_co2 s = some c ∧
    get_temperature s = some ((t : ℚ) / 16 - 273.15) ∧
    get_humidity s = some ((h : ℚ) / 100) := by
  simp [get_co2, get_temperature, get_humidity, hc, ht, hh]

/-- Witness for C4: in the initial dict all three raw values are 0, so
the accessors return `0`, `-273.15` and `0` respectively. -/
theorem accessors_conversions_witness :
    initValues CO2METER_CO2 = some 0 ∧
    (get_co2 initValues = some 0 ∧
     get_temperature initValues = some ((0 : ℚ) / 16 - 273.15) ∧
     get_humidity initValues = some ((0 : ℚ) / 100)) :=
  ⟨by decide,
   accessors_conversions initValues 0 0 0 (by decide) (by decide) (by decide)⟩

/-- Helper: a cycle that is not a successful CO2-coded decode leaves the
entry under `CO2METER_CO2` untouched. -/
theorem readData_not_co2_preserves (r : ReadResult) (s : Values)
    (h : isCO2Update r = false) :
    ((readData r s).2) CO2METER_CO2 = s CO2METER_CO2 := by
  cases r with
  | none => rfl
  | some data =>
    by_cases h4 : 4 < data.length
    · by_cases hbad : data.getD 4 0 ≠ 0x0D ∨ (data.take 3).sum % 256 ≠ data.getD 3 0
      · simp only [readData, if_pos h4, if_pos hbad]
      · push_neg at hbad
        have hop : data.getD 0 0 ≠ CO2METER_CO2 := by
          simp only [isCO2Update, Bool.and_eq_false_iff, decide_eq_false_iff_not,
            beq_eq_false_iff_ne, ne_eq] at h
          rcases h with ((h | h) | h) | h
          · exact absurd h4 h
          · exact absurd hbad.1 h
          · exact absurd hbad.2 h
          · exact h
        have hcond : ¬(data.getD 4 0 ≠ 0x0D ∨ (data.take 3).sum % 256 ≠ data.getD 3 0) := by
          push_neg
          exact hbad
        simp only [readData, if_pos h4, if_neg hcond, updateValues]
        rw [if_neg (fun hk => hop hk.symm)]
    · simp only [readData, if_neg h4]

/-- C9: over any sequence of polling cycles none of which successfully
decodes a CO2-coded frame, `get_co2` is unchanged: reading it twice with
no intervening CO2 decode gives the same value (it is a pure read). -/
theorem get_co2_stable (evs : List ReadResult) (s : Values)
    (h : ∀ r ∈ evs, isCO2Update r = false) :
    get_co2 (runReads evs s) = get_co2 s := by
  induction evs generalizing s with
  | nil => rfl
  | cons ev evs ih =>
    have hstep := readData_not_co2_preserves ev s (h ev (List.mem_cons_self ev evs))
    have htail := ih ((readData ev s).2) (fun r hr => h r (List.mem_cons_of_mem ev hr))
    calc get_co2 (runReads (ev :: evs) s)
        = get_co2 (runReads evs ((readData ev s).2)) := rfl
      _ = get_co2 ((readData ev s).2) := htail
      _ = get_co2 s := hstep

/-- Witness for C9: a failing read, a temperature frame and a
checksum-error frame leave `get_co2` at its initial value. -/
theorem get_co2_stable_witness :
    (∀ r ∈ [none, some [0x42, 0x12, 0x96, 0xEA, 0x0D, 0, 0, 0],
            some [0x50, 0x01, 0x94, 0x95, 0x0D, 0, 0, 0]], isCO2Update r = false) ∧
    get_co2 (runReads [none, some [0x42, 0x12, 0x96, 0xEA, 0x0D, 0, 0, 0],
            some [0x50, 0x01, 0x94, 0x95, 0x0D, 0, 0, 0]] initValues) =
      get_co2 initValues :=
  ⟨by decide,
   get_co2_stable [none, some [0x42, 0x12, 0x96, 0xEA, 0x0D, 0, 0, 0],
     some [0x50, 0x01, 0x94, 0x95, 0x0D, 0, 0, 0]] initValues (by decide)⟩

/-- C5: when `open` fails, or `open` succeeds and the `ioctl` handshake
fails, the constructor propagates that error, no facade is produced, no
polling thread is started, and the construction attempt performs zero
device reads. -/
theorem init_failure_propagates (openRes ioctlRes : Except IoErr Unit) (e : IoErr)
    (h : openRes = .error e ∨ (openRes = .ok () ∧ ioctlRes = .error e)) :
    (initCO2MINI openRes ioctlRes).result = .error e ∧
    (initCO2MINI openRes ioctlRes).threadStarted = false ∧
    (initCO2MINI openRes ioctlRes).deviceReads = 0 := by
  rcases h with h | ⟨h1, h2⟩
  · subst h
    exact ⟨rfl, rfl, rfl⟩
  · subst h1
    subst h2
    exact ⟨rfl, rfl, rfl⟩

/-- Witness for C5: a failing `open` yields the propagated error, no
thread and zero reads. -/
theorem init_failure_propagates_witness :
    ((Except.error "open failed" : Except IoErr Unit) = .error "open failed" ∨
      ((Except.error "open failed" : Except IoErr Unit) = .ok () ∧
        (Except.ok () : Except IoErr Unit) = .error "open failed")) ∧
    ((initCO2MINI (.error "open failed") (.ok ())).result = .error "open failed" ∧
     (initCO2MINI (.error "open failed") (.ok ())).threadStarted = false ∧
     (initCO2MINI (.error "open failed") (.ok ())).deviceReads = 0) :=
  ⟨Or.inl rfl,
   init_failure_propagates (.error "open failed") (.ok ()) "open failed" (Or.inl rfl)⟩

/-- C6: once `weak_self()` observes `None` at iteration `i`, the worker
loop exits at once and permanently: it performs zero further device
reads and leaves the dict untouched, whatever fuel remains; and this
check is the only terminal condition — whenever the facade is still
alive the loop always performs the read and proceeds to the next
iteration, whatever the read returned. -/
theorem worker_stops_when_unreachable (alive : Nat → Bool) (reads : Nat → ReadResult)
    (fuel i : Nat) (s : Values) (hdead : alive i = false) :
    workerRun alive reads fuel i s = (0, s) ∧
    (∀ j t, alive j = true →
      workerRun alive reads (fuel + 1) j t =
        ((workerRun alive reads fuel (j + 1) ((readData (reads j) t).2)).1 + 1,
         (workerRun alive reads fuel (j + 1) ((readData (reads j) t).2)).2)) := by
  constructor
  · cases fuel with
    | zero => rfl
    | succ n => simp [workerRun, hdead]
  · intro j t halive
    simp [workerRun, halive]

/-- Witness for C6: with a facade collected after iteration 1, the loop
run from iteration 2 performs no reads and keeps the initial dict. -/
theorem worker_stops_when_unreachable_witness :
    (fun j => decide (j < 2)) 2 = false ∧
    workerRun (fun j => decide (j < 2)) (fun _ => none) 5 2 initValues =
      (0, initValues) :=
  ⟨by decide,
   (worker_stops_when_unreachable (fun j => decide (j < 2)) (fun _ => none)
     5 2 initValues (by decide)).1⟩

/-- Counterexample to C8 as stated: the read may return fewer than 8
bytes without raising.  The 5-byte read `[0x50, 0x01, 0x94, 0xE5, 0x0D]`
passes the terminator and checksum checks, so `read_data` returns `True`
and overwrites `self._values[0x50]` with `0x0194` — it neither returns
`False` nor leaves the mapping unchanged. -/
theorem readData_short_frame_counterexample :
    [0x50, 0x01, 0x94, 0xE5, 0x0D].length < 8 ∧
    (readData (some [0x50, 0x01, 0x94, 0xE5, 0x0D]) initValues).1 = true ∧
    (readData (some [0x50, 0x01, 0x94, 0xE5, 0x0D]) initValues).2 CO2METER_CO2 =
      some 0x0194 ∧
    initValues CO2METER_CO2 = some 0 := by
  refine ⟨by decide, rfl, by decide, by decide⟩

/-- C8 (amended): `read_data` returns `False` with the values dict
unchanged exactly on the cycles that raise — the read itself raising an
I/O error, or the read yielding fewer than 5 bytes so that indexing
`data[4]` raises; no partial-frame state is retained in those cases. -/
theorem readData_failure_amended (r : ReadResult) (s : Values)
    (h : r = none ∨ ∃ d, r = some d ∧ d.length ≤ 4) :
    (readData r s).1 = false ∧ (readData r s).2 = s := by
  rcases h with h | ⟨d, hd, hlen⟩
  · subst h
    exact ⟨rfl, rfl⟩
  · subst hd
    have h4 : ¬4 < d.length := by omega
    simp [readData, if_neg h4]

/-- Witness for C8 (amended): a 2-byte read returns `False` and keeps
the initial dict. -/
theorem readData_failure_amended_witness :
    ((some [0x50, 0x01] : ReadResult) = none ∨
      ∃ d, (some [0x50, 0x01] : ReadResult) = some d ∧ d.length ≤ 4) ∧
    ((readData (some [0x50, 0x01]) initValues).1 = false ∧
     (readData (some [0x50, 0x01]) initValues).2 = initValues) :=
  ⟨Or.inr ⟨[0x50, 0x01], rfl, by decide⟩,
   readData_failure_amended (some [0x50, 0x01]) initValues
     (Or.inr ⟨[0x50, 0x01], rfl, by decide⟩)⟩

end CO2Monitor
